import Mathlib

/-!
Verification of the Order Execution Engine core against its specification.

The development shallowly embeds the TypeScript source:
* `src/services/dexRouter.ts` — quote simulation, best-price routing, swap
  execution with the slippage check (JavaScript numbers are modelled as `ℚ`;
  each `Math.random()` draw becomes an explicit parameter in `[0, 1]`).
* `src/services/wsManager.ts` — the per-order WebSocket registry
  (`registerConnection`, `sendStatus`), with the connection map modelled as a
  function `String → Option Socket` mirroring the JS `Map`.
* `src/services/orderService.ts` — the persisted order/attempt records, the
  SQL update/upsert statements, the queue job options and `getOrderAttempts`
  (its `ORDER BY attempted_at ASC, attempt_number ASC` is modelled by an
  insertion sort on that lexicographic key).
* `src/workers/executor.ts` — `processOrder`, the per-attempt orchestrator,
  as a state transformer on the persisted database returning the list of
  attempted status broadcasts and the attempt outcome.

Wall-clock delays (`sleep`), log output, and the WebSocket message timestamp
and free-form `message`/payload text fields are elided: no claim refers to
them.  Transaction-hash generation (`Math.random()` driven) is modelled by
passing the generated hash as an explicit parameter.
-/

/-! ## DEX router (src/services/dexRouter.ts) -/

/-- The two simulated venues, in declaration order (Raydium first). -/
inductive Dex
  | raydium
  | meteora
  deriving DecidableEq, Repr

/-- Venue tag as the string stored in the database (`bestQuote.dex`). -/
def dexName : Dex → String
  | Dex.raydium => "raydium"
  | Dex.meteora => "meteora"

/-- Embeds `DexQuote` from dexRouter.ts. -/
structure DexQuote where
  dex : Dex
  price : ℚ
  amountOut : ℚ
  fee : ℚ
  feePercent : ℚ
  deriving DecidableEq, Repr

/-- Embeds `ExecutionResult` from dexRouter.ts. -/
structure ExecutionResult where
  txHash : String
  executedPrice : ℚ
  amountOut : ℚ
  dex : Dex
  deriving DecidableEq, Repr

/-- Models JavaScript `String.prototype.toLowerCase` (character-wise lowering;
the token symbols in play are ASCII). -/
def strLower (s : String) : String := String.mk (s.data.map Char.toLower)

/-- The `basePrices` record lookup with the `|| 1` fallback
(`basePrices[pairKey] || 1`; every stored value is truthy). -/
def basePriceFor (pairKey : String) : ℚ :=
  if pairKey = "sol_usdc" then 100
  else if pairKey = "usdc_sol" then 1/100
  else if pairKey = "sol_usdt" then 100
  else if pairKey = "usdt_sol" then 1/100
  else 1

/-- Embeds `calculateBasePrice`: the pair key is
`tokenIn.toLowerCase() + "_" + tokenOut.toLowerCase()`. -/
def calculateBasePrice (tokenIn tokenOut : String) (amountIn : ℚ) : ℚ :=
  basePriceFor (strLower tokenIn ++ "_" ++ strLower tokenOut) * amountIn

/-- Embeds `getRaydiumQuote`; `r` is the `Math.random()` draw.
Variance `0.98 + r * 0.04`, fee rate `0.003`, reported `feePercent` 0.3. -/
def getRaydiumQuote (tokenIn tokenOut : String) (amountIn r : ℚ) : DexQuote :=
  let baseAmount := calculateBasePrice tokenIn tokenOut amountIn
  let priceVariance := 98/100 + r * (4/100)
  let feePercent := 3/1000
  let amountOut := baseAmount * priceVariance * (1 - feePercent)
  { dex := Dex.raydium
    price := amountOut / amountIn
    amountOut := amountOut
    fee := baseAmount * priceVariance * feePercent
    feePercent := 3/10 }

/-- Embeds `getMeteorQuote`; `r` is the `Math.random()` draw.
Variance `0.97 + r * 0.05`, fee rate `0.002`, reported `feePercent` 0.2. -/
def getMeteorQuote (tokenIn tokenOut : String) (amountIn r : ℚ) : DexQuote :=
  let baseAmount := calculateBasePrice tokenIn tokenOut amountIn
  let priceVariance := 97/100 + r * (5/100)
  let feePercent := 2/1000
  let amountOut := baseAmount * priceVariance * (1 - feePercent)
  { dex := Dex.meteora
    price := amountOut / amountIn
    amountOut := amountOut
    fee := baseAmount * priceVariance * feePercent
    feePercent := 2/10 }

/-- The selection step of `routeBestPrice`:
`raydiumQuote.amountOut > meteoraQuote.amountOut ? raydiumQuote : meteoraQuote`. -/
def selectBestQuote (raydiumQuote meteoraQuote : DexQuote) : DexQuote :=
  if raydiumQuote.amountOut > meteoraQuote.amountOut then raydiumQuote else meteoraQuote

/-- Return value of `routeBestPrice`. -/
structure RouteResult where
  bestQuote : DexQuote
  raydiumQuote : DexQuote
  meteoraQuote : DexQuote
  deriving DecidableEq, Repr

/-- Embeds `routeBestPrice`; `rR`, `rM` are the two venues' random draws. -/
def routeBestPrice (tokenIn tokenOut : String) (amountIn rR rM : ℚ) : RouteResult :=
  let raydiumQuote := getRaydiumQuote tokenIn tokenOut amountIn rR
  let meteoraQuote := getMeteorQuote tokenIn tokenOut amountIn rM
  { bestQuote := selectBestQuote raydiumQuote meteoraQuote
    raydiumQuote := raydiumQuote
    meteoraQuote := meteoraQuote }

/-- Embeds `executeSwap`; `r` is the random draw for the price movement and
`tx` the generated transaction hash (`generateMockTxHash` is random-driven, so
the hash is passed in).  The numeric interpolation of the thrown message
(`toFixed`) is elided; the error value is the message's fixed prefix. -/
def executeSwap (dex : Dex) (amountIn expectedPrice slippageBps r : ℚ)
    (tx : String) : Except String ExecutionResult :=
  let priceSlippage := 1 + (r - 1/2) * (slippageBps / 10000) * (8/10)
  let executedPrice := expectedPrice * priceSlippage
  let amountOut := amountIn * executedPrice
  let actualSlippageBps := |(executedPrice - expectedPrice) / expectedPrice * 10000|
  if actualSlippageBps > slippageBps then
    Except.error "Slippage tolerance exceeded"
  else
    Except.ok { txHash := tx, executedPrice := executedPrice, amountOut := amountOut, dex := dex }

/-! ## Persisted records (src/services/orderService.ts, src/db/migrations.sql) -/

/-- Embeds the `Order` row (`orders` table / `mapDbRowToOrder`). -/
structure Order where
  userWallet : String
  tokenIn : String
  tokenOut : String
  amountIn : ℚ
  orderType : String
  slippageBps : ℚ
  status : String
  selectedDex : Option String := none
  quoteRaydium : Option ℚ := none
  quoteMeteora : Option ℚ := none
  executedPrice : Option ℚ := none
  amountOut : Option ℚ := none
  txHash : Option String := none
  errorMessage : Option String := none
  deriving DecidableEq, Repr

/-- Embeds an `order_attempts` row; `attempted_at` is the insertion timestamp
(`DEFAULT CURRENT_TIMESTAMP`), modelled as a `Nat` tick. -/
structure AttemptRec where
  order_id : String
  attempt_number : Nat
  status : String
  error_message : Option String := none
  dex_used : Option String := none
  attempted_at : Nat
  deriving DecidableEq, Repr

/-- The persisted store: the `orders` table keyed by id, and the
`order_attempts` table as an insertion-ordered list. -/
structure Db where
  orders : String → Option Order
  attempts : List AttemptRec

/-- Embeds `updateOrderStatus`: `SET status = $1, error_message = $2 WHERE id = $3`
(an `UPDATE` of an absent row is a no-op; `errorMessage || null` overwrites the
stored message with NULL when no message is passed). -/
def updateOrderStatus (db : Db) (orderId status : String)
    (errorMessage : Option String) : Db :=
  { db with orders := fun i =>
      if i = orderId then
        (db.orders orderId).map fun o => { o with status := status, errorMessage := errorMessage }
      else db.orders i }

/-- Embeds `updateOrderExecution`: sets status, venue, both quotes and the
execution result fields of one row. -/
def updateOrderExecution (db : Db) (orderId : String) (status selectedDex : String)
    (quoteRaydium quoteMeteora : ℚ) (executedPrice amountOut : Option ℚ)
    (txHash errorMessage : Option String) : Db :=
  { db with orders := fun i =>
      if i = orderId then
        (db.orders orderId).map fun o =>
          { o with
            status := status
            selectedDex := some selectedDex
            quoteRaydium := some quoteRaydium
            quoteMeteora := some quoteMeteora
            executedPrice := executedPrice
            amountOut := amountOut
            txHash := txHash
            errorMessage := errorMessage }
      else db.orders i }

/-- Embeds `recordAttempt`: `INSERT ... ON CONFLICT (order_id, attempt_number)
DO UPDATE SET status = $3, error_message = $4, dex_used = $5` — an upsert that
keeps the original `attempted_at` on conflict. -/
def recordAttempt (db : Db) (orderId : String) (attemptNumber : Nat)
    (status : String) (errorMessage dexUsed : Option String) (now : Nat) : Db :=
  if db.attempts.any fun a => a.order_id == orderId && a.attempt_number == attemptNumber then
    { db with attempts := db.attempts.map fun a =>
        if a.order_id == orderId && a.attempt_number == attemptNumber then
          { a with status := status, error_message := errorMessage, dex_used := dexUsed }
        else a }
  else
    { db with attempts := db.attempts ++
        [{ order_id := orderId, attempt_number := attemptNumber, status := status,
           error_message := errorMessage, dex_used := dexUsed, attempted_at := now }] }

/-- The sort key of `getOrderAttempts`'s SQL:
`ORDER BY attempted_at ASC, attempt_number ASC` (lexicographic). -/
def attLe (a b : AttemptRec) : Prop :=
  a.attempted_at < b.attempted_at ∨
    (a.attempted_at = b.attempted_at ∧ a.attempt_number ≤ b.attempt_number)

instance : DecidableRel attLe := fun a b => by
  unfold attLe
  infer_instance

instance : IsTotal AttemptRec attLe where
  total a b := by
    rcases Nat.lt_trichotomy a.attempted_at b.attempted_at with h | h | h
    · exact Or.inl (Or.inl h)
    · rcases Nat.le_total a.attempt_number b.attempt_number with h2 | h2
      · exact Or.inl (Or.inr ⟨h, h2⟩)
      · exact Or.inr (Or.inr ⟨h.symm, h2⟩)
    · exact Or.inr (Or.inl h)

instance : IsTrans AttemptRec attLe where
  trans a b c hab hbc := by
    rcases hab with h1 | ⟨h1, h1n⟩ <;> rcases hbc with h2 | ⟨h2, h2n⟩
    · exact Or.inl (h1.trans h2)
    · exact Or.inl (h2 ▸ h1)
    · exact Or.inl (h1 ▸ h2)
    · exact Or.inr ⟨h1.trans h2, h1n.trans h2n⟩

/-- Embeds `getOrderAttempts`:
`SELECT ... FROM order_attempts WHERE order_id = $1
 ORDER BY attempted_at ASC, attempt_number ASC`. -/
def getOrderAttempts (db : Db) (orderId : String) : List AttemptRec :=
  List.insertionSort attLe (db.attempts.filter fun a => a.order_id == orderId)

/-! ## WebSocket manager (src/services/wsManager.ts) -/

/-- The `ws` library's `WebSocket.OPEN` ready-state constant. -/
def wsOPEN : Nat := 1

/-- A client socket: identity plus transport ready-state. -/
structure Socket where
  sid : Nat
  readyState : Nat
  deriving DecidableEq, Repr

/-- The `orderConnections` map (`Map<string, WebSocket>`), one slot per id. -/
def Connections := String → Option Socket

/-- The registry write of `registerConnection`:
`orderConnections.set(orderId, socket)`. -/
def registerConnectionConns (conns : Connections) (orderId : String)
    (socket : Socket) : Connections :=
  fun i => if i = orderId then some socket else conns i

/-- The `close`/`error` handler: `orderConnections.delete(orderId)` (keyed by
order id, whichever socket the event came from). -/
def deleteConnection (conns : Connections) (orderId : String) : Connections :=
  fun i => if i = orderId then none else conns i

/-- A status envelope as sent by `sendStatus` (order id and status; the server
timestamp and free-form payload text are elided). -/
structure StatusMessage where
  orderId : String
  status : String
  deriving DecidableEq, Repr

/-- Embeds `sendStatus`: look up the socket; if absent or not OPEN, return
without sending (the code only logs); otherwise deliver the envelope.  The
result is the delivery performed: `none` means nothing was sent.  The function
is total — like the source, which also catches `socket.send` errors, it never
raises. -/
def sendStatus (conns : Connections) (orderId status : String) :
    Option (Socket × StatusMessage) :=
  match conns orderId with
  | none => none
  | some socket =>
    if socket.readyState ≠ wsOPEN then none
    else some (socket, { orderId := orderId, status := status })

/-- Messages visible on one subscriber channel. -/
inductive WsMsg
  | snapshot (orderId status : String) (selectedDex : Option String)
      (executedPrice amountOut : Option ℚ) (txHash : Option String)
  | replay (orderId : String) (attemptNumber : Nat) (status : String)
      (errorMessage dexUsed : Option String) (attemptedAt : Nat)
  | live (orderId status : String)
  deriving DecidableEq

/-- The replay message `registerConnection` builds for one attempt row. -/
def replayMsg (a : AttemptRec) : WsMsg :=
  WsMsg.replay a.order_id a.attempt_number a.status a.error_message a.dex_used a.attempted_at

/-- The snapshot messages `registerConnection` sends after its
`await getOrderById`: one state snapshot when the order exists, none
otherwise. -/
def snapshotMsgs (db : Db) (orderId : String) : List WsMsg :=
  match db.orders orderId with
  | none => []
  | some o =>
    [WsMsg.snapshot orderId o.status o.selectedDex o.executedPrice o.amountOut o.txHash]

/-- The replay messages `registerConnection` sends after its
`await getOrderAttempts`: one per row, in the order the query returns them. -/
def replayMsgs (db : Db) (orderId : String) : List WsMsg :=
  (getOrderAttempts db orderId).map replayMsg

/-- The message sequence one subscriber's channel receives around a
`registerConnection` call, with the interleaving of the JS event loop made
explicit.  `registerConnection` is async: it synchronously runs
`orderConnections.set(orderId, socket)`, then `await`s `getOrderById` before
sending the snapshot, then `await`s `getOrderAttempts` before sending the
replays.  A concurrent `sendStatus` for the same order that runs during
either await finds the socket already registered and open and delivers to it
immediately (`socket.send` calls arrive in call order).  `w1` holds the live
events published during the first await window (delivered before the
snapshot), `w2` those published during the second window (delivered between
snapshot and replays), and `post` those published after the subscribe
completes.  Events published before the `set` are not delivered to this
socket and so do not appear. -/
def registerConnectionTrace (db : Db) (orderId : String) (w1 w2 post : List WsMsg) :
    List WsMsg :=
  w1 ++ snapshotMsgs db orderId ++ w2 ++ replayMsgs db orderId ++ post

/-! ## Order executor worker (src/workers/executor.ts) -/

/-- Embeds `processOrder`, the handler for one dispatched queue job, as a
state transformer on the persisted store.  Parameters: `attemptsMade` is the
job's completed-attempt count (`job.attemptsMade`), `maxRetries` the
configured ceiling (`QUEUE_MAX_RETRIES`, default 3), `rR`/`rM`/`rE` the random
draws consumed by the two quotes and the swap, `tx` the generated transaction
hash and `now` the attempt-insertion timestamp.  Returns the store after all
writes, the `sendStatus` broadcasts attempted (in call order), and the
handler outcome (`error` re-raises to the queue, as the source re-throws). -/
def processOrder (db : Db) (orderId : String) (attemptsMade maxRetries : Nat)
    (rR rM rE : ℚ) (tx : String) (now : Nat) :
    Db × List StatusMessage × Except String Unit :=
  let attemptNumber := attemptsMade + 1
  match db.orders orderId with
  | none =>
    -- `throw new Error(...)` before any broadcast; caught by the handler's catch.
    let msg := "Order " ++ orderId ++ " not found"
    let db1 := recordAttempt db orderId attemptNumber "failed" (some msg) none now
    if maxRetries ≤ attemptNumber then
      (updateOrderStatus db1 orderId "failed" (some msg),
       [{ orderId := orderId, status := "failed" }], Except.error msg)
    else
      (db1, [], Except.error msg)
  | some order =>
    let db1 := updateOrderStatus db orderId "routing" none
    let route := routeBestPrice order.tokenIn order.tokenOut order.amountIn rR rM
    let best := route.bestQuote
    let db2 := recordAttempt db1 orderId attemptNumber "routing" none (some (dexName best.dex)) now
    let db3 := updateOrderStatus db2 orderId "building" none
    let db4 := updateOrderStatus db3 orderId "submitted" none
    let stageEvents : List StatusMessage :=
      [{ orderId := orderId, status := "pending" },
       { orderId := orderId, status := "routing" },
       { orderId := orderId, status := "building" },
       { orderId := orderId, status := "submitted" }]
    match executeSwap best.dex order.amountIn best.price order.slippageBps rE tx with
    | Except.ok res =>
      let db5 := updateOrderExecution db4 orderId "confirmed" (dexName best.dex)
        route.raydiumQuote.price route.meteoraQuote.price
        (some res.executedPrice) (some res.amountOut) (some res.txHash) none
      let db6 := recordAttempt db5 orderId attemptNumber "confirmed" none
        (some (dexName best.dex)) now
      (db6, stageEvents ++ [{ orderId := orderId, status := "confirmed" }], Except.ok ())
    | Except.error msg =>
      -- catch block: record the failed attempt (dex_used is not passed),
      -- finalize on the last allowed attempt, then re-throw.
      let db5 := recordAttempt db4 orderId attemptNumber "failed" (some msg) none now
      if maxRetries ≤ attemptNumber then
        (updateOrderStatus db5 orderId "failed" (some msg),
         stageEvents ++ [{ orderId := orderId, status := "failed" }], Except.error msg)
      else
        (db5, stageEvents, Except.error msg)

/-! ## Queue configuration and retry engine -/

/-- The job options `createOrder` passes to `orderQueue.add` in
orderService.ts: `delay: 10000, attempts: 3 (QUEUE_MAX_RETRIES default),
backoff: { type: 'exponential', delay: 2000 }`. -/
structure JobOpts where
  initialDelay : Nat
  maxAttempts : Nat
  backoffType : String
  backoffDelay : Nat
  deriving DecidableEq, Repr

/-- The options `createOrder` configures (source values). -/
def createOrderJobOpts : JobOpts :=
  { initialDelay := 10000, maxAttempts := 3, backoffType := "exponential", backoffDelay := 2000 }

/-- Modelled from the spec: the queue library's (BullMQ's) backoff computation
is outside this repository; §4.2 gives `baseDelay × 2^(attemptNumber − 1)`
(1-indexed) for the `exponential` strategy the repository configures. -/
def backoffDelayFor (opts : JobOpts) (attemptNumber : Nat) : Nat :=
  if opts.backoffType = "exponential" then
    opts.backoffDelay * 2 ^ (attemptNumber - 1)
  else
    opts.backoffDelay

/-- Modelled from the spec: the queue library's dispatch/retry loop is outside
this repository; §4.2: run the handler, stop on success, otherwise re-dispatch
with an incremented attempt counter while completed attempts stay below the
ceiling.  Returns the final store, all broadcasts, and how many times the
handler ran. -/
def runQueueJob (handler : Nat → Db → Db × List StatusMessage × Except String Unit) :
    Nat → Nat → Db → Db × List StatusMessage × Nat
  | _, 0, db => (db, [], 0)
  | attemptsMade, remaining + 1, db =>
    let r := handler attemptsMade db
    match r.2.2 with
    | Except.ok _ => (r.1, r.2.1, 1)
    | Except.error _ =>
      let rest := runQueueJob handler (attemptsMade + 1) remaining r.1
      (rest.1, r.2.1 ++ rest.2.1, rest.2.2 + 1)

/-- A queue job admitted with `maxAttempts` total tries (attempt counter 0). -/
def runJob (handler : Nat → Db → Db × List StatusMessage × Except String Unit)
    (maxAttempts : Nat) (db : Db) : Db × List StatusMessage × Nat :=
  runQueueJob handler 0 maxAttempts db

/-! ## Order submission boundary (src/api/orders.ts) -/

/-- Embeds `ExecuteOrderBody`; absent JSON fields are `none`. -/
structure ExecuteOrderBody where
  userWallet : Option String := none
  tokenIn : Option String := none
  tokenOut : Option String := none
  amountIn : Option ℚ := none
  orderType : Option String := none
  slippageBps : Option ℚ := none
  deriving DecidableEq, Repr

/-- Embeds `CreateOrderData`, the record handed to `createOrder`. -/
structure CreateOrderData where
  userWallet : String
  tokenIn : String
  tokenOut : String
  amountIn : ℚ
  orderType : String
  slippageBps : ℚ
  deriving DecidableEq, Repr

/-- JavaScript falsiness of an optional string: `undefined` or `""`. -/
def falsyStr : Option String → Bool
  | none => true
  | some s => s == ""

/-- JavaScript falsiness of an optional number: `undefined` or `0`. -/
def falsyNum : Option ℚ → Bool
  | none => true
  | some q => q == 0

/-- Embeds the `POST /api/orders/execute` handler body of
`registerOrderRoutes`: the two validation rejections, then the
`createOrder` argument record with the `|| 'market'` and `|| 100`
falsy-or defaults. -/
def executeOrderHandler (body : ExecuteOrderBody) :
    Except (Nat × String) CreateOrderData :=
  if falsyStr body.userWallet || falsyStr body.tokenIn || falsyStr body.tokenOut ||
      falsyNum body.amountIn then
    Except.error (400, "Missing required fields: userWallet, tokenIn, tokenOut, amountIn")
  else
    match body.userWallet, body.tokenIn, body.tokenOut, body.amountIn with
    | some userWallet, some tokenIn, some tokenOut, some amountIn =>
      if amountIn ≤ 0 then
        Except.error (400, "amountIn must be greater than 0")
      else
        Except.ok
          { userWallet := userWallet
            tokenIn := tokenIn
            tokenOut := tokenOut
            amountIn := amountIn
            orderType := (if falsyStr body.orderType then "market"
                          else body.orderType.getD "market")
            slippageBps := (match body.slippageBps with
                            | none => 100
                            | some q => if q == 0 then 100 else q) }
    | _, _, _, _ =>
      Except.error (400, "Missing required fields: userWallet, tokenIn, tokenOut, amountIn")

/-! ## Concrete sample data used to instantiate the theorems -/

/-- An order persisted in its terminal `failed` state. -/
def sampleFailedOrder : Order :=
  { userWallet := "w", tokenIn := "sol", tokenOut := "usdc", amountIn := 1,
    orderType := "market", slippageBps := 100, status := "failed",
    errorMessage := some "Slippage tolerance exceeded" }

/-- A store holding only `sampleFailedOrder` under id `"o1"`. -/
def sampleTerminalDb : Db :=
  { orders := fun i => if i = "o1" then some sampleFailedOrder else none, attempts := [] }

/-- An order with the tightest slippage tolerance of 1 bps. -/
def sampleSlippageOrder : Order :=
  { userWallet := "w", tokenIn := "sol", tokenOut := "usdc", amountIn := 1,
    orderType := "market", slippageBps := 1, status := "pending" }

/-- A store holding only `sampleSlippageOrder` under id `"o1"`. -/
def sampleSlippageDb : Db :=
  { orders := fun i => if i = "o1" then some sampleSlippageOrder else none, attempts := [] }

/-- An order persisted as `confirmed` with its execution result fields. -/
def sampleConfirmedOrder : Order :=
  { userWallet := "w", tokenIn := "sol", tokenOut := "usdc", amountIn := 3/2,
    orderType := "market", slippageBps := 100, status := "confirmed",
    selectedDex := some "raydium", quoteRaydium := some 100, quoteMeteora := some 99,
    executedPrice := some (997/10), amountOut := some (2991/20), txHash := some "TX1" }

/-- A store with a confirmed order and an attempt history stored out of
lexicographic order (a second order's attempt interleaved). -/
def sampleWsDb : Db :=
  { orders := fun i => if i = "o1" then some sampleConfirmedOrder else none,
    attempts :=
      [{ order_id := "o1", attempt_number := 2, status := "confirmed",
         dex_used := some "raydium", attempted_at := 9 },
       { order_id := "o2", attempt_number := 1, status := "routing", attempted_at := 4 },
       { order_id := "o1", attempt_number := 1, status := "failed",
         error_message := some "err", attempted_at := 3 }] }

/-- The empty connection registry. -/
def emptyConns : Connections := fun _ => none

/-- A submission body that passes validation and requests zero slippage. -/
def sampleBody : ExecuteOrderBody :=
  { userWallet := some "w", tokenIn := some "sol", tokenOut := some "usdc",
    amountIn := some (3/2), orderType := none, slippageBps := some 0 }

/-- The order data `createOrder` receives for `sampleBody`. -/
def sampleCreateData : CreateOrderData :=
  { userWallet := "w", tokenIn := "sol", tokenOut := "usdc", amountIn := 3/2,
    orderType := "market", slippageBps := 100 }

/-! ## Helper lemmas -/

theorem calculateBasePrice_sol_usdc (a : ℚ) :
    calculateBasePrice "sol" "usdc" a = 100 * a := by
  have h : strLower "sol" ++ "_" ++ strLower "usdc" = "sol_usdc" := by decide
  rw [calculateBasePrice, h, basePriceFor]
  norm_num

example : (getRaydiumQuote "sol" "usdc" 1 1).amountOut = 102 * (997/1000) := by
  norm_num [getRaydiumQuote, calculateBasePrice_sol_usdc]

/-- Every value the `basePrices` lookup can produce is strictly positive. -/
theorem basePriceFor_pos (k : String) : 0 < basePriceFor k := by
  unfold basePriceFor
  split_ifs <;> norm_num

/-- The swap simulation never takes the `SlippageExceeded` branch: the price
perturbation is damped by `0.8 × (r − 0.5)`, so realized slippage is at most
`0.4 ×` the tolerance for every draw `r ∈ [0, 1]` and every non-negative
tolerance. -/
theorem executeSwap_ok (dex : Dex) (amountIn expectedPrice slippageBps r : ℚ)
    (tx : String) (hr0 : 0 ≤ r) (hr1 : r ≤ 1) (hbps : 0 ≤ slippageBps) :
    executeSwap dex amountIn expectedPrice slippageBps r tx =
      Except.ok
        { txHash := tx
          executedPrice := expectedPrice * (1 + (r - 1/2) * (slippageBps / 10000) * (8/10))
          amountOut := amountIn * (expectedPrice * (1 + (r - 1/2) * (slippageBps / 10000) * (8/10)))
          dex := dex } := by
  have habs :
      |(expectedPrice * (1 + (r - 1/2) * (slippageBps / 10000) * (8/10)) - expectedPrice) /
          expectedPrice * 10000| ≤ slippageBps := by
    rcases eq_or_ne expectedPrice 0 with h | h
    · simp [h, hbps]
    · have hdiv :
          (expectedPrice * (1 + (r - 1/2) * (slippageBps / 10000) * (8/10)) - expectedPrice) /
              expectedPrice * 10000 = (r - 1/2) * (slippageBps * (4/5)) := by
        field_simp
        ring
      rw [hdiv, abs_mul]
      have h1 : |r - 1/2| ≤ 1/2 := by
        rw [abs_le]
        constructor <;> linarith
      have h2 : |slippageBps * (4/5)| = slippageBps * (4/5) := by
        rw [abs_of_nonneg]
        positivity
      rw [h2]
      nlinarith
  unfold executeSwap
  rw [if_neg (not_lt.mpr habs)]

/-- `recordAttempt` touches only the attempts table. -/
theorem recordAttempt_orders (db : Db) (orderId : String) (attemptNumber : Nat)
    (status : String) (errorMessage dexUsed : Option String) (now : Nat) :
    (recordAttempt db orderId attemptNumber status errorMessage dexUsed now).orders = db.orders := by
  unfold recordAttempt
  split <;> rfl

/-- The queue loop runs the handler at most `remaining` more times. -/
theorem runQueueJob_count_le
    (handler : Nat → Db → Db × List StatusMessage × Except String Unit) :
    ∀ (remaining attemptsMade : Nat) (db : Db),
      (runQueueJob handler attemptsMade remaining db).2.2 ≤ remaining := by
  intro remaining
  induction remaining with
  | zero => intro attemptsMade db; simp [runQueueJob]
  | succ n ih =>
    intro attemptsMade db
    simp only [runQueueJob]
    cases h : (handler attemptsMade db).2.2 with
    | ok _ => simp [h]
    | error _ =>
      simp only [h]
      have := ih (attemptsMade + 1) (handler attemptsMade db).1
      omega

/-! ## Claim theorems -/

/-- Claim C1, counterexample: at an exact tie of output amounts
(`rR = 1/2`, `rM = 1447/2495` make both venues quote 99.7), `routeBestPrice`
returns the Meteora quote, not the first-declared venue (Raydium) the claim
requires. -/
theorem claim_C1_counterexample :
    (routeBestPrice "sol" "usdc" 1 (1/2) (1447/2495)).raydiumQuote.amountOut =
        (routeBestPrice "sol" "usdc" 1 (1/2) (1447/2495)).meteoraQuote.amountOut
      ∧ (routeBestPrice "sol" "usdc" 1 (1/2) (1447/2495)).bestQuote.dex = Dex.meteora
      ∧ Dex.meteora ≠ Dex.raydium := by
  refine ⟨?_, ?_, by decide⟩ <;>
    norm_num [routeBestPrice, selectBestQuote, getRaydiumQuote, getMeteorQuote,
      calculateBasePrice_sol_usdc]

/-- Claim C1, amended: `routeBestPrice` selects the quote with the greatest
`amountOut`, returning Raydium's quote only when it is strictly greater; on an
exact tie it returns the second-declared venue's quote (Meteora). -/
theorem claim_C1 (rq mq : DexQuote) (tokenIn tokenOut : String) (amountIn rR rM : ℚ) :
    (selectBestQuote rq mq).amountOut = max rq.amountOut mq.amountOut
    ∧ (mq.amountOut < rq.amountOut → selectBestQuote rq mq = rq)
    ∧ (rq.amountOut ≤ mq.amountOut → selectBestQuote rq mq = mq)
    ∧ (routeBestPrice tokenIn tokenOut amountIn rR rM).bestQuote =
        selectBestQuote (getRaydiumQuote tokenIn tokenOut amountIn rR)
          (getMeteorQuote tokenIn tokenOut amountIn rM) := by
  refine ⟨?_, ?_, ?_, rfl⟩
  · unfold selectBestQuote
    rcases le_or_lt rq.amountOut mq.amountOut with h | h
    · rw [if_neg (not_lt.mpr h), max_eq_right h]
    · rw [if_pos h, max_eq_left h.le]
  · intro h
    unfold selectBestQuote
    rw [if_pos h]
  · intro h
    unfold selectBestQuote
    rw [if_neg (not_lt.mpr h)]

/-- Claim C1, witness: on quotes with Raydium output 2 vs Meteora output 1,
selection returns the maximum and the Raydium quote. -/
theorem claim_C1_witness :
    (selectBestQuote
        { dex := Dex.raydium, price := 2, amountOut := 2, fee := 1/100, feePercent := 3/10 }
        { dex := Dex.meteora, price := 1, amountOut := 1, fee := 1/100, feePercent := 2/10 }).amountOut =
      max 2 1
    ∧ (1 : ℚ) < 2
    ∧ selectBestQuote
        { dex := Dex.raydium, price := 2, amountOut := 2, fee := 1/100, feePercent := 3/10 }
        { dex := Dex.meteora, price := 1, amountOut := 1, fee := 1/100, feePercent := 2/10 } =
      { dex := Dex.raydium, price := 2, amountOut := 2, fee := 1/100, feePercent := 3/10 } := by
  refine ⟨(claim_C1 _ _ "sol" "usdc" 1 0 0).1, by norm_num, ?_⟩
  exact (claim_C1 _ _ "sol" "usdc" 1 0 0).2.1 (by norm_num)

/-- Claim C2: with the tolerance set to 1 bps, `executeSwap` succeeds for
every random draw in `[0, 1]` — the `SlippageExceeded` branch is unreachable
(realized slippage is damped to at most 0.4 bps), contradicting the spec's
reachability scenario and the repository's own test. -/
theorem claim_C2 (dex : Dex) (amountIn expectedPrice r : ℚ) (tx : String)
    (hr0 : 0 ≤ r) (hr1 : r ≤ 1) :
    ∃ res, executeSwap dex amountIn expectedPrice 1 r tx = Except.ok res :=
  ⟨_, executeSwap_ok dex amountIn expectedPrice 1 r tx hr0 hr1 (by norm_num)⟩

/-- Claim C2, witness: at the extreme draw `r = 1` the swap still succeeds. -/
theorem claim_C2_witness :
    (0 : ℚ) ≤ 1 ∧ (1 : ℚ) ≤ 1 ∧
      ∃ res, executeSwap Dex.meteora 1 100 1 1 "T" = Except.ok res :=
  ⟨by norm_num, le_refl 1, claim_C2 Dex.meteora 1 100 1 "T" (by norm_num) (le_refl 1)⟩

/-- On a job for an order that exists, with the swap draw in `[0, 1]` and a
non-negative tolerance, `processOrder` runs the full stage sequence to
success and overwrites the persisted record with a fresh `confirmed` result —
regardless of the status the record held before. -/
theorem processOrder_found_confirmed (db : Db) (orderId : String) (o : Order)
    (attemptsMade maxRetries : Nat) (rR rM rE : ℚ) (tx : String) (now : Nat)
    (hdb : db.orders orderId = some o) (hr0 : 0 ≤ rE) (hr1 : rE ≤ 1)
    (hbps : 0 ≤ o.slippageBps) :
    (processOrder db orderId attemptsMade maxRetries rR rM rE tx now).2.2 = Except.ok ()
    ∧ ∃ o',
        (processOrder db orderId attemptsMade maxRetries rR rM rE tx now).1.orders orderId =
          some o'
        ∧ o'.status = "confirmed" ∧ o'.txHash = some tx := by
  have hswap := executeSwap_ok
    (routeBestPrice o.tokenIn o.tokenOut o.amountIn rR rM).bestQuote.dex
    o.amountIn (routeBestPrice o.tokenIn o.tokenOut o.amountIn rR rM).bestQuote.price
    o.slippageBps rE tx hr0 hr1 hbps
  constructor
  · simp only [processOrder, hdb, hswap]
  · simp only [processOrder, hdb, hswap, recordAttempt_orders, updateOrderExecution,
      updateOrderStatus, if_pos rfl]
    simp only [hdb, Option.map_some']
    exact ⟨_, rfl, rfl, rfl⟩

/-- Claim C3, counterexample: `sampleFailedOrder` is persisted with terminal
status `failed`, yet processing a redelivered queue job for it changes the
record — the status becomes `confirmed` and the stored row is no longer the
old one.  `processOrder` never consults the persisted status. -/
theorem claim_C3_counterexample :
    sampleFailedOrder.status = "failed"
    ∧ ((processOrder sampleTerminalDb "o1" 0 3 (1/2) (1/2) (1/2) "TX2" 7).1.orders "o1").map
        Order.status = some "confirmed"
    ∧ (processOrder sampleTerminalDb "o1" 0 3 (1/2) (1/2) (1/2) "TX2" 7).1.orders "o1" ≠
        some sampleFailedOrder := by
  obtain ⟨o', ho', hst, htx⟩ := (processOrder_found_confirmed sampleTerminalDb "o1"
    sampleFailedOrder 0 3 (1/2) (1/2) (1/2) "TX2" 7 rfl (by norm_num) (by norm_num)
    (by norm_num [sampleFailedOrder])).2
  refine ⟨rfl, ?_, ?_⟩
  · rw [ho', Option.map_some', hst]
  · rw [ho']
    intro h
    have h' := Option.some.inj h
    rw [h'] at hst
    exact absurd hst (by decide)

/-- Claim C3, amended: an order whose persisted status is `confirmed` or
`failed` is immutable only while no further queue job for it is processed;
`processOrder` does not check the persisted status, so a redelivered job
re-runs the whole stage sequence and overwrites the terminal record with a
fresh execution result (fresh transaction hash, status `confirmed`). -/
theorem claim_C3 (db : Db) (orderId : String) (o : Order)
    (attemptsMade maxRetries : Nat) (rR rM rE : ℚ) (tx : String) (now : Nat)
    (hdb : db.orders orderId = some o)
    (_hterm : o.status = "confirmed" ∨ o.status = "failed")
    (hr0 : 0 ≤ rE) (hr1 : rE ≤ 1) (hbps : 0 ≤ o.slippageBps) :
    ∃ o',
      (processOrder db orderId attemptsMade maxRetries rR rM rE tx now).1.orders orderId = some o'
      ∧ o'.status = "confirmed" ∧ o'.txHash = some tx :=
  (processOrder_found_confirmed db orderId o attemptsMade maxRetries rR rM rE tx now
    hdb hr0 hr1 hbps).2

/-- Claim C3, witness: the amended statement instantiated on the stored
`failed` order. -/
theorem claim_C3_witness :
    sampleTerminalDb.orders "o1" = some sampleFailedOrder
    ∧ (sampleFailedOrder.status = "confirmed" ∨ sampleFailedOrder.status = "failed")
    ∧ ∃ o', (processOrder sampleTerminalDb "o1" 0 3 (1/2) (1/2) (1/2) "TX3" 8).1.orders "o1" =
        some o' ∧ o'.status = "confirmed" ∧ o'.txHash = some "TX3" :=
  ⟨rfl, Or.inr rfl,
    claim_C3 sampleTerminalDb "o1" sampleFailedOrder 0 3 (1/2) (1/2) (1/2) "TX3" 8 rfl
      (Or.inr rfl) (by norm_num) (by norm_num) (by norm_num [sampleFailedOrder])⟩

/-- Claim C6: a queue job configured with `createOrder`'s options runs its
handler at most 3 times; and when `processOrder` fails on the final allowed
attempt (`attemptNumber ≥ maxRetries`), the persisted order is set to status
`failed` carrying the error message, and a `failed` status broadcast is
attempted. -/
theorem claim_C6 :
    (∀ (handler : Nat → Db → Db × List StatusMessage × Except String Unit) (db : Db),
        (runJob handler createOrderJobOpts.maxAttempts db).2.2 ≤ createOrderJobOpts.maxAttempts)
    ∧ ∀ (db : Db) (orderId : String) (o : Order) (attemptsMade : Nat) (rR rM rE : ℚ)
        (tx : String) (now : Nat) (msg : String),
        db.orders orderId = some o →
        (processOrder db orderId attemptsMade createOrderJobOpts.maxAttempts rR rM rE tx
            now).2.2 = Except.error msg →
        createOrderJobOpts.maxAttempts ≤ attemptsMade + 1 →
        (∃ o',
          (processOrder db orderId attemptsMade createOrderJobOpts.maxAttempts rR rM rE tx
              now).1.orders orderId = some o'
          ∧ o'.status = "failed" ∧ o'.errorMessage = some msg)
        ∧ { orderId := orderId, status := "failed" } ∈
            (processOrder db orderId attemptsMade createOrderJobOpts.maxAttempts rR rM rE tx
              now).2.1 := by
  constructor
  · intro handler db
    exact runQueueJob_count_le handler createOrderJobOpts.maxAttempts 0 db
  · intro db orderId o attemptsMade rR rM rE tx now msg hdb herr hn
    simp only [processOrder, hdb] at herr ⊢
    cases hsw : executeSwap (routeBestPrice o.tokenIn o.tokenOut o.amountIn rR rM).bestQuote.dex
        o.amountIn (routeBestPrice o.tokenIn o.tokenOut o.amountIn rR rM).bestQuote.price
        o.slippageBps rE tx with
    | ok res =>
      rw [hsw] at herr
      simp at herr
    | error m =>
      rw [hsw] at herr
      dsimp only at herr
      rw [if_pos hn] at herr
      dsimp only at herr
      dsimp only
      rw [if_pos hn]
      have hm : m = msg := Except.error.inj herr
      subst hm
      constructor
      · simp only [updateOrderStatus, recordAttempt_orders, if_pos rfl, hdb]
        simp [hdb]
      · simp

/-- Claim C6, witness: a concrete slippage-failing final attempt (draw 2,
tolerance 1 bps) on attempt number 3. -/
theorem claim_C6_witness :
    (runJob (fun k db => processOrder db "o1" k createOrderJobOpts.maxAttempts (1/2) (1/2) 2 "TX" 5)
        createOrderJobOpts.maxAttempts sampleSlippageDb).2.2 ≤ createOrderJobOpts.maxAttempts
    ∧ (∃ o',
        (processOrder sampleSlippageDb "o1" 2 createOrderJobOpts.maxAttempts (1/2) (1/2) 2 "TX"
            5).1.orders "o1" = some o'
        ∧ o'.status = "failed" ∧ o'.errorMessage = some "Slippage tolerance exceeded")
    ∧ { orderId := "o1", status := "failed" } ∈
        (processOrder sampleSlippageDb "o1" 2 createOrderJobOpts.maxAttempts (1/2) (1/2) 2 "TX"
          5).2.1 := by
  have habs : |(6/5 : ℚ)| = 6/5 := abs_of_nonneg (by norm_num)
  have herr : (processOrder sampleSlippageDb "o1" 2 createOrderJobOpts.maxAttempts (1/2) (1/2) 2
      "TX" 5).2.2 = Except.error "Slippage tolerance exceeded" := by
    norm_num [processOrder, sampleSlippageDb, sampleSlippageOrder, routeBestPrice,
      getRaydiumQuote, getMeteorQuote, selectBestQuote, executeSwap,
      calculateBasePrice_sol_usdc, createOrderJobOpts, habs]
  have h2 := claim_C6.2 sampleSlippageDb "o1" sampleSlippageOrder 2 (1/2) (1/2) 2 "TX" 5
    "Slippage tolerance exceeded" rfl herr (by decide)
  exact ⟨claim_C6.1 _ sampleSlippageDb, h2.1, h2.2⟩

/-- Claim C4, counterexample: the order is persisted as `confirmed`, yet the
first message the connecting subscriber receives is a concurrent live
`confirmed` broadcast, not the snapshot: `registerConnection` registers the
socket and then awaits the order read, and a `sendStatus` running in that
window (the worker broadcasts `confirmed` after the terminal write) delivers
to the already-registered socket first. -/
theorem claim_C4_counterexample :
    sampleConfirmedOrder.status = "confirmed"
    ∧ (registerConnectionTrace sampleWsDb "o1" [WsMsg.live "o1" "confirmed"] [] []).head? =
        some (WsMsg.live "o1" "confirmed")
    ∧ (registerConnectionTrace sampleWsDb "o1" [WsMsg.live "o1" "confirmed"] [] []).head? ≠
        some (WsMsg.snapshot "o1" "confirmed" sampleConfirmedOrder.selectedDex
          sampleConfirmedOrder.executedPrice sampleConfirmedOrder.amountOut
          sampleConfirmedOrder.txHash) :=
  ⟨rfl, rfl, by decide⟩

/-- Claim C4, amended: the subscribe-time block itself is ordered — the
snapshot with status `confirmed` and the result fields, then exactly one
replay per historical attempt in ascending attempt-number order — and it
precedes every live event published after the subscribe completes.  But
because `registerConnection` awaits the two DB reads after registering the
socket, live events published concurrently during those awaits are delivered
before the snapshot (`w1`) or between snapshot and replays (`w2`); the
claim's "all before any new live event" ordering holds exactly when no
publish races the subscribe (`w1 = w2 = []`).  The two data-shape hypotheses
hold of every store the worker produces: attempt numbers are unique per order
(`UNIQUE(order_id, attempt_number)`) and recorded with non-decreasing
insertion timestamps. -/
theorem claim_C4 (db : Db) (orderId : String) (o : Order) (w1 w2 post : List WsMsg)
    (hdb : db.orders orderId = some o)
    (hstatus : o.status = "confirmed")
    (huniq : (db.attempts.filter fun a => a.order_id == orderId).Pairwise
        fun a b => a.attempt_number ≠ b.attempt_number)
    (hmono : ∀ a ∈ db.attempts, ∀ b ∈ db.attempts, a.order_id = orderId → b.order_id = orderId →
        a.attempt_number < b.attempt_number → a.attempted_at ≤ b.attempted_at) :
    registerConnectionTrace db orderId w1 w2 post =
        w1 ++ (WsMsg.snapshot orderId "confirmed" o.selectedDex o.executedPrice o.amountOut
            o.txHash
          :: (w2 ++ (getOrderAttempts db orderId).map replayMsg ++ post))
    ∧ (getOrderAttempts db orderId).Pairwise (fun a b => a.attempt_number < b.attempt_number)
    ∧ (getOrderAttempts db orderId).Perm
        (db.attempts.filter fun a => a.order_id == orderId)
    ∧ (w1 = [] → w2 = [] →
        registerConnectionTrace db orderId w1 w2 post =
          WsMsg.snapshot orderId "confirmed" o.selectedDex o.executedPrice o.amountOut o.txHash
            :: ((getOrderAttempts db orderId).map replayMsg ++ post)) := by
  have hperm : (getOrderAttempts db orderId).Perm
      (db.attempts.filter fun a => a.order_id == orderId) :=
    List.perm_insertionSort attLe _
  refine ⟨?_, ?_, hperm, ?_⟩
  · simp [registerConnectionTrace, snapshotMsgs, replayMsgs, hdb, hstatus]
  · have hsorted : (getOrderAttempts db orderId).Pairwise attLe :=
      List.sorted_insertionSort attLe _
    have hne : (getOrderAttempts db orderId).Pairwise
        (fun a b => a.attempt_number ≠ b.attempt_number) :=
      (hperm.pairwise_iff fun hxy => Ne.symm hxy).mpr huniq
    refine List.Pairwise.imp_of_mem ?_ (hsorted.and hne)
    intro a b ha hb hab
    have ha' := hperm.mem_iff.mp ha
    have hb' := hperm.mem_iff.mp hb
    rw [List.mem_filter] at ha' hb'
    obtain ⟨haM, haid⟩ := ha'
    obtain ⟨hbM, hbid⟩ := hb'
    have haid' : a.order_id = orderId := by simpa using haid
    have hbid' : b.order_id = orderId := by simpa using hbid
    obtain ⟨hle, hne2⟩ := hab
    rcases hle with hlt | ⟨heq, hleN⟩
    · by_contra hcon
      push_neg at hcon
      have hblt : b.attempt_number < a.attempt_number :=
        lt_of_le_of_ne hcon fun h => hne2 h.symm
      have := hmono b hbM a haM hbid' haid' hblt
      omega
    · omega
  · intro hw1 hw2
    subst hw1
    subst hw2
    simp [registerConnectionTrace, snapshotMsgs, replayMsgs, hdb, hstatus]

/-- Claim C4, witness: the amended statement instantiated on a confirmed
order whose attempt rows are stored out of order, with a live `confirmed`
broadcast racing the subscribe. -/
theorem claim_C4_witness :
    sampleWsDb.orders "o1" = some sampleConfirmedOrder
    ∧ sampleConfirmedOrder.status = "confirmed"
    ∧ ((sampleWsDb.attempts.filter fun a => a.order_id == "o1").Pairwise
        fun a b => a.attempt_number ≠ b.attempt_number)
    ∧ (∀ a ∈ sampleWsDb.attempts, ∀ b ∈ sampleWsDb.attempts,
        a.order_id = "o1" → b.order_id = "o1" →
        a.attempt_number < b.attempt_number → a.attempted_at ≤ b.attempted_at)
    ∧ (registerConnectionTrace sampleWsDb "o1" [WsMsg.live "o1" "confirmed"] [] [] =
        [WsMsg.live "o1" "confirmed"] ++
          (WsMsg.snapshot "o1" "confirmed" sampleConfirmedOrder.selectedDex
              sampleConfirmedOrder.executedPrice sampleConfirmedOrder.amountOut
              sampleConfirmedOrder.txHash
            :: ([] ++ (getOrderAttempts sampleWsDb "o1").map replayMsg ++ []))
        ∧ (getOrderAttempts sampleWsDb "o1").Pairwise
            (fun a b => a.attempt_number < b.attempt_number)
        ∧ (getOrderAttempts sampleWsDb "o1").Perm
            (sampleWsDb.attempts.filter fun a => a.order_id == "o1")
        ∧ ([WsMsg.live "o1" "confirmed"] = ([] : List WsMsg) → ([] : List WsMsg) = [] →
            registerConnectionTrace sampleWsDb "o1" [WsMsg.live "o1" "confirmed"] [] [] =
              WsMsg.snapshot "o1" "confirmed" sampleConfirmedOrder.selectedDex
                  sampleConfirmedOrder.executedPrice sampleConfirmedOrder.amountOut
                  sampleConfirmedOrder.txHash
                :: ((getOrderAttempts sampleWsDb "o1").map replayMsg ++ []))) :=
  ⟨rfl, rfl, by decide, by decide,
    claim_C4 sampleWsDb "o1" sampleConfirmedOrder [WsMsg.live "o1" "confirmed"] [] [] rfl rfl
      (by decide) (by decide)⟩

/-- Claim C5: with the options `createOrder` configures (exponential backoff,
base delay 2000 ms), the retry delay before attempt `n ≥ 1` becomes eligible
again is `2000 × 2^(n−1)`. -/
theorem claim_C5 (n : Nat) (_hn : 1 ≤ n) :
    backoffDelayFor createOrderJobOpts n = 2000 * 2 ^ (n - 1) := by
  simp [backoffDelayFor, createOrderJobOpts]

/-- Claim C5, witness: the configured base yields 2000, 4000, 8000 ms for
attempts 1, 2, 3. -/
theorem claim_C5_witness :
    backoffDelayFor createOrderJobOpts 1 = 2000
    ∧ backoffDelayFor createOrderJobOpts 2 = 4000
    ∧ backoffDelayFor createOrderJobOpts 3 = 8000 := by
  refine ⟨?_, ?_, ?_⟩
  · rw [claim_C5 1 (by decide)]
    decide
  · rw [claim_C5 2 (by decide)]
    decide
  · rw [claim_C5 3 (by decide)]
    decide

/-- Claim C7: `sendStatus` for an order with no registered channel, or whose
channel is not in the OPEN state, returns without sending anything — a total,
silent no-op. -/
theorem claim_C7 (conns : Connections) (orderId status : String)
    (h : conns orderId = none ∨ ∃ s, conns orderId = some s ∧ s.readyState ≠ wsOPEN) :
    sendStatus conns orderId status = none := by
  rcases h with h | ⟨s, hs, hrs⟩
  · simp [sendStatus, h]
  · simp [sendStatus, hs, hrs]

/-- Claim C7, witness: publishing to the empty registry delivers nothing. -/
theorem claim_C7_witness :
    (emptyConns "o1" = none ∨ ∃ s, emptyConns "o1" = some s ∧ s.readyState ≠ wsOPEN)
    ∧ sendStatus emptyConns "o1" "confirmed" = none :=
  ⟨Or.inl rfl, claim_C7 emptyConns "o1" "confirmed" (Or.inl rfl)⟩

/-- Claim C8: a second `registerConnection` for the same order id replaces
the previous registration (the registry is a map, so at most one channel per
id); afterwards a publish delivers to the newest socket when it is open and
never to the replaced one, and other ids are untouched. -/
theorem claim_C8 (conns : Connections) (orderId status : String) (s1 s2 : Socket)
    (hne : s1 ≠ s2) :
    registerConnectionConns (registerConnectionConns conns orderId s1) orderId s2 orderId =
      some s2
    ∧ (s2.readyState = wsOPEN →
        sendStatus (registerConnectionConns (registerConnectionConns conns orderId s1) orderId s2)
          orderId status = some (s2, { orderId := orderId, status := status }))
    ∧ (∀ m, sendStatus (registerConnectionConns (registerConnectionConns conns orderId s1)
          orderId s2) orderId status ≠ some (s1, m))
    ∧ ∀ i, i ≠ orderId →
        registerConnectionConns (registerConnectionConns conns orderId s1) orderId s2 i =
          conns i := by
  refine ⟨by simp [registerConnectionConns], ?_, ?_, ?_⟩
  · intro hopen
    simp [registerConnectionConns, sendStatus, hopen]
  · intro m hcon
    by_cases hrs : s2.readyState = wsOPEN
    · simp [registerConnectionConns, sendStatus, hrs] at hcon
      exact hne hcon.1.symm
    · simp [registerConnectionConns, sendStatus, hrs] at hcon
  · intro i hi
    simp [registerConnectionConns, hi]

/-- Claim C8, witness: re-registering order `o1` from socket 1 to socket 2
routes the publish to socket 2 only. -/
theorem claim_C8_witness :
    (⟨1, 1⟩ : Socket) ≠ ⟨2, 1⟩
    ∧ registerConnectionConns (registerConnectionConns emptyConns "o1" ⟨1, 1⟩) "o1" ⟨2, 1⟩
        "o1" = some ⟨2, 1⟩
    ∧ sendStatus (registerConnectionConns (registerConnectionConns emptyConns "o1" ⟨1, 1⟩)
        "o1" ⟨2, 1⟩) "o1" "routing" = some (⟨2, 1⟩, { orderId := "o1", status := "routing" })
    ∧ ∀ m, sendStatus (registerConnectionConns (registerConnectionConns emptyConns "o1" ⟨1, 1⟩)
        "o1" ⟨2, 1⟩) "o1" "routing" ≠ some (⟨1, 1⟩, m) := by
  have h := claim_C8 emptyConns "o1" "routing" ⟨1, 1⟩ ⟨2, 1⟩ (by decide)
  exact ⟨by decide, h.1, h.2.1 rfl, h.2.2.1⟩

/-- Claim C9: for every strictly positive input amount and every variance
draw in `[0, 1]`, both venues' quotes have strictly positive `amountOut` and
strictly positive `fee`. -/
theorem claim_C9 (tokenIn tokenOut : String) (amountIn r : ℚ)
    (hamt : 0 < amountIn) (hr0 : 0 ≤ r) (_hr1 : r ≤ 1) :
    (0 < (getRaydiumQuote tokenIn tokenOut amountIn r).amountOut
      ∧ 0 < (getRaydiumQuote tokenIn tokenOut amountIn r).fee)
    ∧ (0 < (getMeteorQuote tokenIn tokenOut amountIn r).amountOut
      ∧ 0 < (getMeteorQuote tokenIn tokenOut amountIn r).fee) := by
  have hbase : 0 < calculateBasePrice tokenIn tokenOut amountIn :=
    mul_pos (basePriceFor_pos _) hamt
  have hvR : 0 < 98/100 + r * (4/100) := by nlinarith
  have hvM : 0 < 97/100 + r * (5/100) := by nlinarith
  refine ⟨⟨?_, ?_⟩, ?_, ?_⟩ <;> simp only [getRaydiumQuote, getMeteorQuote]
  · exact mul_pos (mul_pos hbase hvR) (by norm_num)
  · exact mul_pos (mul_pos hbase hvR) (by norm_num)
  · exact mul_pos (mul_pos hbase hvM) (by norm_num)
  · exact mul_pos (mul_pos hbase hvM) (by norm_num)

/-- Claim C9, witness: the sol→usdc pair at amount 1 and draw 1/2. -/
theorem claim_C9_witness :
    (0 : ℚ) < 1 ∧ (0 : ℚ) ≤ 1/2 ∧ (1/2 : ℚ) ≤ 1
    ∧ ((0 < (getRaydiumQuote "sol" "usdc" 1 (1/2)).amountOut
        ∧ 0 < (getRaydiumQuote "sol" "usdc" 1 (1/2)).fee)
      ∧ (0 < (getMeteorQuote "sol" "usdc" 1 (1/2)).amountOut
        ∧ 0 < (getMeteorQuote "sol" "usdc" 1 (1/2)).fee)) :=
  ⟨by norm_num, by norm_num, by norm_num,
    claim_C9 "sol" "usdc" 1 (1/2) (by norm_num) (by norm_num) (by norm_num)⟩

/-- Claim C10: whenever the submission handler accepts a request, the
created order's `slippageBps` is never 0, and a request with `slippageBps`
omitted or equal to 0 gets the falsy-or default of 100 — a zero tolerance can
never reach the orchestrator. -/
theorem claim_C10 (body : ExecuteOrderBody) (data : CreateOrderData)
    (h : executeOrderHandler body = Except.ok data) :
    data.slippageBps ≠ 0
    ∧ ((body.slippageBps = none ∨ body.slippageBps = some 0) → data.slippageBps = 100) := by
  unfold executeOrderHandler at h
  split at h
  · simp at h
  · split at h
    · split at h
      · simp at h
      · have hd := Except.ok.inj h
        subst hd
        constructor
        · dsimp only
          rcases hsl : body.slippageBps with _ | q
          · simp [hsl]
          · by_cases hq : q = 0
            · simp [hsl, hq]
            · simp [hsl, hq]
        · intro hcase
          rcases hcase with hnone | hzero
          · simp [hnone]
          · simp [hzero]
    · simp at h

/-- Claim C10, witness: a valid body requesting `slippageBps = 0` yields an
order with tolerance 100. -/
theorem claim_C10_witness :
    executeOrderHandler sampleBody = Except.ok sampleCreateData
    ∧ sampleCreateData.slippageBps ≠ 0
    ∧ ((sampleBody.slippageBps = none ∨ sampleBody.slippageBps = some 0) →
        sampleCreateData.slippageBps = 100) := by
  have hw : ("w" : String) ≠ "" := by decide
  have hsol : ("sol" : String) ≠ "" := by decide
  have husdc : ("usdc" : String) ≠ "" := by decide
  have hok : executeOrderHandler sampleBody = Except.ok sampleCreateData := by
    norm_num [executeOrderHandler, sampleBody, sampleCreateData, falsyStr, falsyNum,
      hw, hsol, husdc]
  exact ⟨hok, claim_C10 sampleBody sampleCreateData hok⟩
